import Mathlib

/-!
Verification development for the Firebot WebSocket server manager
(`src/server/websocket-server-manager.ts`).

The embedding models the parsed JSON values that flow through the message
handler, the per-connection state held on each `WebSocketClient`
(`ws.type`, `ws.registrationTimeout`, transport ready state), and the
observable actions the manager performs (sending response frames,
invoking registered plugin callbacks, closing the connection, logging
send errors, broadcasting event frames).  JSON serialization of outbound
frames (`JSON.stringify`) is abstracted: a send action carries the frame
value itself, so two sends carry the same bytes exactly when they carry
the same frame value.
-/

/-- A parsed JSON value, the result of a successful `JSON.parse`. -/
inductive Json where
  | null
  | bool (b : Bool)
  | num (n : Int)
  | str (s : String)
  | arr (elems : List Json)
  | obj (fields : List (String × Json))

/-- First-match association-list lookup for object fields. -/
def lookupField : List (String × Json) → String → Option Json
  | [], _ => none
  | (k, v) :: rest, f => if k = f then some v else lookupField rest f

/-- JavaScript property access `j.f` on a non-null value: a field of an
object, and `undefined` (here `none`) on any other value.  Access on
`null` throws and is handled separately in `handleMessage`. -/
def jsGet : Json → String → Option Json
  | Json.obj fields, f => lookupField fields f
  | _, _ => none

/-- The `ResponseMessage` frame shape built by `sendResponse` / `sendError`:
`type` is always the literal `"response"`, so only the varying fields are
kept.  `id` is the echoed `message.id`, which may be absent (`undefined`). -/
structure ResponseMessage where
  id : Option Json
  name : String
  data : Json

/-- A registered custom WebSocket handler (`CustomWebSocketHandler`).
The callback itself is opaque; `callbackId` identifies it so "this
callback was invoked with this data" is observable. -/
structure CustomWebSocketHandler where
  pluginName : String
  callbackId : Nat

/-- Per-connection state held on a `WebSocketClient`:
`wsType` models `ws.type` (`null` until registered, then `"events"`),
`timerActive` models a pending (not yet fired, not cleared)
`ws.registrationTimeout`, `readyState` is the transport state (1 = OPEN,
3 = CLOSED), and `closeInfo` records the code and reason of a
server-initiated `ws.close`. -/
structure ConnState where
  wsType : Option String
  timerActive : Bool
  readyState : Nat
  closeInfo : Option (Nat × String)

/-- An observable action of the manager. -/
inductive WsAction where
  | sendResponse (r : ResponseMessage)
  | invokeCallback (callbackId : Nat) (data : Option Json)
  | close (code : Nat) (reason : String)
  | sendEvent (clientIdx : Nat) (frame : Json)
  | logError (msg : String)

/-- `sendResponse(ws, messageId, data)` from the source: a success
response frame (the source's default `data` argument is `null`). -/
def sendResponse (messageId : Option Json) (data : Json) : WsAction :=
  WsAction.sendResponse { id := messageId, name := "success", data := data }

/-- `sendError(ws, messageId, errorMessage)` from the source: an error
response frame carrying the error text. -/
def sendError (messageId : Option Json) (errorMessage : String) : WsAction :=
  WsAction.sendResponse { id := messageId, name := "error", data := Json.str errorMessage }

/-- JavaScript `toLowerCase()` as used on plugin names, restricted to
the per-character case mapping and computable by structural recursion
over the characters. -/
def lowercase (s : String) : String := ⟨s.data.map Char.toLower⟩

/-- `ws.close(code, reason)`: a no-op on an already-closed transport,
otherwise records the close and moves the transport to CLOSED. -/
def closeConn (conn : ConnState) (code : Nat) (reason : String) : ConnState :=
  if conn.readyState = 3 then conn
  else { conn with readyState := 3, closeInfo := some (code, reason) }

/-- The `case "invoke"` arm of the message switch in `createServer`.
`message` is known to be an object here (only objects can have
`type == "invoke"`).  The inner `switch (message.name)` uses strict
equality, so only a string `"subscribe-events"` / `"plugin"` matches.
A non-string, non-null, non-empty `pluginName` makes
`pluginName.toLowerCase()` throw, modelled as `Except.error`. -/
def handleInvoke (handlers : List CustomWebSocketHandler) (conn : ConnState)
    (message : Json) : Except String (ConnState × List WsAction) :=
  match jsGet message "name" with
  | some (Json.str "subscribe-events") =>
    if conn.wsType.isSome then
      Except.ok (conn, [sendError (jsGet message "id") "socket already subscribed"])
    else
      Except.ok ({ conn with timerActive := false, wsType := some "events" },
        [sendResponse (jsGet message "id") Json.null])
  | some (Json.str "plugin") =>
    match jsGet message "pluginName" with
    | none =>
      Except.ok (conn, [sendError (jsGet message "id") "Must specify pluginName"])
    | some Json.null =>
      Except.ok (conn, [sendError (jsGet message "id") "Must specify pluginName"])
    | some (Json.str s) =>
      if s = "" then
        Except.ok (conn, [sendError (jsGet message "id") "Must specify pluginName"])
      else
        match handlers.find? (fun p => lowercase p.pluginName == lowercase s) with
        | some plugin =>
          Except.ok (conn, [WsAction.invokeCallback plugin.callbackId (jsGet message "data")])
        | none =>
          Except.ok (conn, [sendError (jsGet message "id") "Unknown plugin name specified"])
    | some _ =>
      Except.error "pluginName.toLowerCase is not a function"
  | _ =>
    Except.ok (conn, [sendError (jsGet message "id") "unknown command invocation"])

/-- The body of the `try` block in the per-connection message listener:
`switch (message.type)` after a successful parse.  Reading `.type` off
the parse result of the literal frame `"null"` throws a `TypeError`;
every non-`"invoke"` type (including `"response"`) falls through the
`default` arm and does nothing. -/
def handleMessage (handlers : List CustomWebSocketHandler) (conn : ConnState)
    (message : Json) : Except String (ConnState × List WsAction) :=
  match message with
  | Json.null => Except.error "Cannot read properties of null (reading type)"
  | _ =>
    match jsGet message "type" with
    | some (Json.str "invoke") => handleInvoke handlers conn message
    | _ => Except.ok (conn, [])

/-- The whole `message` listener: `parsed` is the outcome of
`JSON.parse(data.toString())`.  Both a parse failure and any exception
thrown while handling the frame land in the `catch` block, which closes
the connection with code 4006 and the error message as the reason. -/
def handleFrame (handlers : List CustomWebSocketHandler) (conn : ConnState)
    (parsed : Except String Json) : ConnState × List WsAction :=
  match parsed with
  | Except.error e => (closeConn conn 4006 e, [WsAction.close 4006 e])
  | Except.ok message =>
    match handleMessage handlers conn message with
    | Except.error e => (closeConn conn 4006 e, [WsAction.close 4006 e])
    | Except.ok r => r

/-- The `connection` listener sets `ws.registrationTimeout =
setTimeout(..., 5000)`: the accepted connection starts unregistered with
a pending registration timer, and the second component is the scheduled
delay in milliseconds. -/
def onAccept : ConnState × Nat :=
  ({ wsType := none, timerActive := true, readyState := 1, closeInfo := none }, 5000)

/-- Events a single connection can experience after accept: an inbound
frame (with its parse outcome), the registration timer firing, and the
transport closing. -/
inductive ConnEvent where
  | frame (parsed : Except String Json)
  | timerFire
  | transportClose

/-- One step of a connection's lifecycle.  Frames are delivered only on
an open transport.  The timer callback runs only if the timeout is still
pending (`clearTimeout` prevents it) and closes with code 4000; firing
consumes the one-shot timer.  The manager registers no `close` listener,
so a transport close only moves the ready state to CLOSED. -/
def connStep (handlers : List CustomWebSocketHandler) (conn : ConnState) :
    ConnEvent → ConnState × List WsAction
  | ConnEvent.frame parsed =>
    if conn.readyState = 1 then handleFrame handlers conn parsed else (conn, [])
  | ConnEvent.timerFire =>
    if conn.timerActive then
      ({ closeConn conn 4000 "Registration timed out" with timerActive := false },
        [WsAction.close 4000 "Registration timed out"])
    else (conn, [])
  | ConnEvent.transportClose => ({ conn with readyState := 3 }, [])

/-- Run a connection through a sequence of events, collecting the
actions in order. -/
def connRun (handlers : List CustomWebSocketHandler) :
    ConnState → List ConnEvent → ConnState × List WsAction
  | conn, [] => (conn, [])
  | conn, e :: es =>
    ((connRun handlers (connStep handlers conn e).1 es).1,
      (connStep handlers conn e).2 ++ (connRun handlers (connStep handlers conn e).1 es).2)

/-- The state of the `WebSocketServerManager` singleton:
`started` models `this.server != null` (set by `createServer`),
`clients` models `this.server.clients` (indexed by position), and
`customHandlers` models `this.customHandlers`. -/
structure ServerState where
  started : Bool
  clients : List ConnState
  customHandlers : List CustomWebSocketHandler

/-- The `EventMessage` frame built by `triggerEvent`. -/
def eventMessage (eventType : String) (payload : Json) : Json :=
  Json.obj [("type", Json.str "event"), ("name", Json.str eventType), ("data", payload)]

/-- The `this.server.clients.forEach` fan-out of `triggerEvent`, with
`i` the index of the first client of `clients` in the full client list.
A client whose ready state is not OPEN or whose `type` is not
`"events"` is skipped.  `sendErr i` is the error (if any) the transport
reports to the send callback for client `i`; the callback logs it. -/
def fanOut (message : Json) (sendErr : Nat → Option String) :
    Nat → List ConnState → List WsAction
  | _, [] => []
  | i, client :: rest =>
    if client.readyState ≠ 1 ∨ client.wsType ≠ some "events" then
      fanOut message sendErr (i + 1) rest
    else
      WsAction.sendEvent i message ::
        ((match sendErr i with
          | some m => [WsAction.logError m]
          | none => []) ++ fanOut message sendErr (i + 1) rest)

/-- `triggerEvent(eventType, payload)`: returns immediately when the
server was never created, otherwise serializes the event frame once and
fans it out to the clients. -/
def triggerEvent (s : ServerState) (eventType : String) (payload : Json)
    (sendErr : Nat → Option String) : List WsAction :=
  if s.started = false then []
  else fanOut (eventMessage eventType payload) sendErr 0 s.clients

/-- `registerCustomWebSocketListener(pluginName, callback)`: appends the
handler and returns `true` unless a case-insensitive name match already
exists, in which case it returns `false` and changes nothing. -/
def registerCustomWebSocketListener (handlers : List CustomWebSocketHandler)
    (pluginName : String) (callbackId : Nat) : List CustomWebSocketHandler × Bool :=
  if handlers.findIdx? (fun p => lowercase p.pluginName == lowercase pluginName) = none then
    (handlers ++ [{ pluginName := pluginName, callbackId := callbackId }], true)
  else
    (handlers, false)

/-- Dispatch an inbound frame to the connection at index `i`; only that
connection's entry in the client list is touched. -/
def serverHandleFrame (s : ServerState) (i : Nat) (parsed : Except String Json) :
    ServerState × List WsAction :=
  match s.clients[i]? with
  | none => (s, [])
  | some c =>
    let r := connStep s.customHandlers c (ConnEvent.frame parsed)
    ({ s with clients := s.clients.set i r.1 }, r.2)

/-- Number of response frames among a list of actions. -/
def countResponses (acts : List WsAction) : Nat :=
  (acts.filter fun a => match a with
    | WsAction.sendResponse _ => true
    | _ => false).length

/-- Whether an action is an event-frame send of the broadcast path. -/
def WsAction.isSendEvent : WsAction → Bool
  | WsAction.sendEvent _ _ => true
  | _ => false

/-- An invoke frame is dispatched to a registered plugin callback
exactly when it is a `"plugin"` invoke whose `pluginName` is a
non-empty string matching a registered handler case-insensitively. -/
def pluginDispatched (handlers : List CustomWebSocketHandler) (message : Json) : Bool :=
  match jsGet message "name" with
  | some (Json.str "plugin") =>
    match jsGet message "pluginName" with
    | some (Json.str s) =>
      (s != "") && (handlers.find? fun p => lowercase p.pluginName == lowercase s).isSome
    | _ => false
  | _ => false

/-- The state a successful `subscribe-events` invoke leaves the
connection in: registration timer cleared, role set to `"events"`. -/
def subscribeState (conn : ConnState) : ConnState :=
  { conn with timerActive := false, wsType := some "events" }

theorem closeConn_wsType (conn : ConnState) (code : Nat) (reason : String) :
    (closeConn conn code reason).wsType = conn.wsType := by
  unfold closeConn; split <;> rfl

theorem closeConn_timerActive (conn : ConnState) (code : Nat) (reason : String) :
    (closeConn conn code reason).timerActive = conn.timerActive := by
  unfold closeConn; split <;> rfl

theorem handleInvoke_state_cases (handlers : List CustomWebSocketHandler)
    (conn : ConnState) (m : Json) (c2 : ConnState) (acts : List WsAction)
    (h : handleInvoke handlers conn m = Except.ok (c2, acts)) :
    c2 = conn ∨ (conn.wsType = none ∧ c2 = subscribeState conn) := by
  unfold handleInvoke at h
  split at h
  · split at h
    · simp only [Except.ok.injEq, Prod.mk.injEq] at h
      exact Or.inl h.1.symm
    · simp only [Except.ok.injEq, Prod.mk.injEq] at h
      refine Or.inr ⟨?_, h.1.symm⟩
      exact Option.not_isSome_iff_eq_none.mp (by assumption)
  · split at h
    · simp only [Except.ok.injEq, Prod.mk.injEq] at h
      exact Or.inl h.1.symm
    · simp only [Except.ok.injEq, Prod.mk.injEq] at h
      exact Or.inl h.1.symm
    · split at h
      · simp only [Except.ok.injEq, Prod.mk.injEq] at h
        exact Or.inl h.1.symm
      · split at h
        · simp only [Except.ok.injEq, Prod.mk.injEq] at h
          exact Or.inl h.1.symm
        · simp only [Except.ok.injEq, Prod.mk.injEq] at h
          exact Or.inl h.1.symm
    · exact absurd h (by simp)
  · simp only [Except.ok.injEq, Prod.mk.injEq] at h
    exact Or.inl h.1.symm

theorem handleMessage_state_cases (handlers : List CustomWebSocketHandler)
    (conn : ConnState) (m : Json) (c2 : ConnState) (acts : List WsAction)
    (h : handleMessage handlers conn m = Except.ok (c2, acts)) :
    c2 = conn ∨ (conn.wsType = none ∧ c2 = subscribeState conn) := by
  unfold handleMessage at h
  split at h
  · exact absurd h (by simp)
  · split at h
    · exact handleInvoke_state_cases handlers conn m c2 acts h
    · simp only [Except.ok.injEq, Prod.mk.injEq] at h
      exact Or.inl h.1.symm

theorem handleFrame_state_cases (handlers : List CustomWebSocketHandler)
    (conn : ConnState) (parsed : Except String Json) :
    ((handleFrame handlers conn parsed).1.wsType = conn.wsType ∧
      (handleFrame handlers conn parsed).1.timerActive = conn.timerActive) ∨
    (conn.wsType = none ∧ (handleFrame handlers conn parsed).1 = subscribeState conn) := by
  unfold handleFrame
  match parsed with
  | Except.error e =>
    exact Or.inl ⟨closeConn_wsType conn 4006 e, closeConn_timerActive conn 4006 e⟩
  | Except.ok message =>
    simp only
    split
    · exact Or.inl ⟨closeConn_wsType conn 4006 _, closeConn_timerActive conn 4006 _⟩
    · next c2acts heq =>
      rcases handleMessage_state_cases handlers conn message c2acts.1 c2acts.2
        (by rw [heq]) with hc | hc
      · exact Or.inl ⟨by rw [hc], by rw [hc]⟩
      · exact Or.inr hc

theorem connStep_state_cases (handlers : List CustomWebSocketHandler)
    (conn : ConnState) (e : ConnEvent) :
    ((connStep handlers conn e).1.wsType = conn.wsType ∧
      ((connStep handlers conn e).1.timerActive = true → conn.timerActive = true)) ∨
    (conn.wsType = none ∧ (connStep handlers conn e).1 = subscribeState conn) := by
  cases e with
  | frame parsed =>
    simp only [connStep]
    split
    · rcases handleFrame_state_cases handlers conn parsed with ⟨h1, h2⟩ | h
      · exact Or.inl ⟨h1, fun ht => h2 ▸ ht⟩
      · exact Or.inr h
    · exact Or.inl ⟨rfl, id⟩
  | timerFire =>
    simp only [connStep]
    split
    · exact Or.inl ⟨closeConn_wsType conn 4000 _, fun ht => Bool.noConfusion ht⟩
    · exact Or.inl ⟨rfl, id⟩
  | transportClose => exact Or.inl ⟨rfl, id⟩

theorem connRun_timer_invariant (handlers : List CustomWebSocketHandler)
    (es : List ConnEvent) :
    ∀ conn : ConnState, (conn.wsType ≠ none → conn.timerActive = false) →
      ((connRun handlers conn es).1.wsType ≠ none →
        (connRun handlers conn es).1.timerActive = false) := by
  induction es with
  | nil => exact fun conn h => h
  | cons e es ih =>
    intro conn h
    simp only [connRun]
    apply ih
    intro hws
    rcases connStep_state_cases handlers conn e with ⟨h1, h2⟩ | ⟨_, hsub⟩
    · cases hstep : (connStep handlers conn e).1.timerActive
      · rfl
      · have hconn : conn.timerActive = false := h (h1 ▸ hws)
        exact absurd (h2 hstep) (by rw [hconn]; exact Bool.false_ne_true)
    · rw [hsub]; rfl

theorem handleMessage_invoke (handlers : List CustomWebSocketHandler)
    (conn : ConnState) (message : Json)
    (hty : jsGet message "type" = some (Json.str "invoke")) :
    handleMessage handlers conn message = handleInvoke handlers conn message := by
  cases message
  case null => simp [jsGet] at hty
  all_goals simp only [handleMessage, hty]

theorem handleMessage_subscribe_none (handlers : List CustomWebSocketHandler)
    (conn : ConnState) (message : Json)
    (hty : jsGet message "type" = some (Json.str "invoke"))
    (hname : jsGet message "name" = some (Json.str "subscribe-events"))
    (h0 : conn.wsType = none) :
    handleMessage handlers conn message =
      Except.ok (subscribeState conn, [sendResponse (jsGet message "id") Json.null]) := by
  rw [handleMessage_invoke handlers conn message hty]
  unfold handleInvoke
  simp only [hname, h0, subscribeState, Option.isSome_none, Bool.false_eq_true, if_false]

theorem handleMessage_subscribe_some (handlers : List CustomWebSocketHandler)
    (conn : ConnState) (message : Json)
    (hty : jsGet message "type" = some (Json.str "invoke"))
    (hname : jsGet message "name" = some (Json.str "subscribe-events"))
    (hne : conn.wsType ≠ none) :
    handleMessage handlers conn message =
      Except.ok (conn, [sendError (jsGet message "id") "socket already subscribed"]) := by
  rw [handleMessage_invoke handlers conn message hty]
  unfold handleInvoke
  simp only [hname, Option.ne_none_iff_isSome.mp hne, if_true]

/-- C2: the first `subscribe-events` invoke on a connection whose role is
still unset cancels the registration timer, sets the role to `"events"`
and sends a success response; every later `subscribe-events` invoke gets
the `"socket already subscribed"` error response and leaves the role
unchanged; and under any event at all the role either stays what it was
or moves from unset to `"events"`, so it transitions at most once. -/
theorem subscribe_role_transition (handlers : List CustomWebSocketHandler)
    (conn : ConnState) (message : Json)
    (hty : jsGet message "type" = some (Json.str "invoke"))
    (hname : jsGet message "name" = some (Json.str "subscribe-events")) :
    (conn.wsType = none →
      handleMessage handlers conn message =
        Except.ok (subscribeState conn, [sendResponse (jsGet message "id") Json.null])) ∧
    (conn.wsType ≠ none →
      handleMessage handlers conn message =
        Except.ok (conn, [sendError (jsGet message "id") "socket already subscribed"])) ∧
    (∀ e : ConnEvent,
      (connStep handlers conn e).1.wsType = conn.wsType ∨
        (conn.wsType = none ∧ (connStep handlers conn e).1 = subscribeState conn)) := by
  refine ⟨handleMessage_subscribe_none handlers conn message hty hname,
    handleMessage_subscribe_some handlers conn message hty hname, fun e => ?_⟩
  rcases connStep_state_cases handlers conn e with ⟨h1, _⟩ | h
  · exact Or.inl h1
  · exact Or.inr h

/-- Witness for C2: a concrete subscribe frame on a freshly accepted
connection yields the success response and the `"events"` role. -/
theorem subscribe_role_transition_witness :
    handleMessage [] onAccept.1
        (Json.obj [("type", Json.str "invoke"), ("id", Json.num 1),
          ("name", Json.str "subscribe-events")]) =
      Except.ok (subscribeState onAccept.1,
        [sendResponse (some (Json.num 1)) Json.null]) :=
  (subscribe_role_transition [] onAccept.1
    (Json.obj [("type", Json.str "invoke"), ("id", Json.num 1),
      ("name", Json.str "subscribe-events")]) rfl rfl).1 rfl

/-- C3: the accepted connection starts with a pending one-shot
registration timer scheduled at 5000ms; if the timer fires while still
pending (the connection never subscribed, so nothing cleared it), the
connection is closed with code 4000 and reason `"Registration timed
out"`; and a connection that has subscribed by the time the fire event
is processed is untouched by the watchdog. -/
theorem registration_watchdog (handlers : List CustomWebSocketHandler)
    (es : List ConnEvent)
    (hsub : (connRun handlers onAccept.1 es).1.wsType ≠ none) :
    onAccept.2 = 5000 ∧
    onAccept.1.timerActive = true ∧
    (∀ conn : ConnState, conn.timerActive = true → conn.readyState = 1 →
      (connStep handlers conn ConnEvent.timerFire).1.closeInfo =
          some (4000, "Registration timed out") ∧
        (connStep handlers conn ConnEvent.timerFire).1.readyState = 3 ∧
        (connStep handlers conn ConnEvent.timerFire).2 =
          [WsAction.close 4000 "Registration timed out"]) ∧
    connStep handlers (connRun handlers onAccept.1 es).1 ConnEvent.timerFire =
      ((connRun handlers onAccept.1 es).1, []) := by
  refine ⟨rfl, rfl, fun conn ht hr => ?_, ?_⟩
  · simp only [connStep, ht, if_true, closeConn, hr]
    norm_num
  · have hti : (connRun handlers onAccept.1 es).1.timerActive = false :=
      connRun_timer_invariant handlers es onAccept.1 (fun h => absurd rfl h) hsub
    simp only [connStep, hti, Bool.false_eq_true, if_false]

/-- Witness for C3: a connection that subscribed (here via a concrete
subscribe frame) is not closed when the watchdog fire event arrives. -/
theorem registration_watchdog_witness :
    connStep []
        (connRun [] onAccept.1
          [ConnEvent.frame (Except.ok (Json.obj
            [("type", Json.str "invoke"), ("id", Json.num 1),
              ("name", Json.str "subscribe-events")]))]).1
        ConnEvent.timerFire =
      ((connRun [] onAccept.1
          [ConnEvent.frame (Except.ok (Json.obj
            [("type", Json.str "invoke"), ("id", Json.num 1),
              ("name", Json.str "subscribe-events")]))]).1, []) :=
  (registration_watchdog []
    [ConnEvent.frame (Except.ok (Json.obj
      [("type", Json.str "invoke"), ("id", Json.num 1),
        ("name", Json.str "subscribe-events")]))]
    (by decide)).2.2.2

/-- C4 amended: the registration timer is explicitly cancelled in
exactly one situation, a successful subscription; a transport close
never touches it (the code installs no close listener), and the only
frame handling that changes the pending flag is the successful
`subscribe-events` invoke, which also sets the role. -/
theorem timer_cancel_only_on_subscribe (handlers : List CustomWebSocketHandler)
    (conn : ConnState) (message : Json) :
    ((connStep handlers conn ConnEvent.transportClose).1.timerActive = conn.timerActive) ∧
    (conn.readyState = 1 →
      (((connStep handlers conn (ConnEvent.frame (Except.ok message))).1.timerActive
            = conn.timerActive ∧
          (connStep handlers conn (ConnEvent.frame (Except.ok message))).1.wsType
            = conn.wsType) ∨
        (conn.wsType = none ∧
          (connStep handlers conn (ConnEvent.frame (Except.ok message))).1
            = subscribeState conn))) ∧
    (conn.readyState = 1 → conn.wsType = none →
      jsGet message "type" = some (Json.str "invoke") →
      jsGet message "name" = some (Json.str "subscribe-events") →
      (connStep handlers conn (ConnEvent.frame (Except.ok message))).1
        = subscribeState conn) := by
  refine ⟨rfl, fun hr => ?_, fun hr h0 hty hname => ?_⟩
  · simp only [connStep, hr, if_true]
    rcases handleFrame_state_cases handlers conn (Except.ok message) with ⟨h1, h2⟩ | h
    · exact Or.inl ⟨h2, h1⟩
    · exact Or.inr h
  · simp only [connStep, hr, if_true, handleFrame,
      handleMessage_subscribe_none handlers conn message hty hname h0]

/-- C4 as stated is false on the code: closing a still-unregistered
connection leaves the registration timer pending, and the timer later
fires against the already-closed connection. -/
theorem close_leaves_timer_pending :
    (connRun [] onAccept.1 [ConnEvent.transportClose]).1.timerActive = true ∧
    (connRun [] onAccept.1 [ConnEvent.transportClose, ConnEvent.timerFire]).2 =
      [WsAction.close 4000 "Registration timed out"] :=
  ⟨rfl, rfl⟩

/-- Witness for the amended C4: a concrete subscribe frame on a fresh
connection clears the pending registration timer. -/
theorem timer_cancel_only_on_subscribe_witness :
    (connStep [] onAccept.1 (ConnEvent.frame (Except.ok (Json.obj
        [("type", Json.str "invoke"), ("id", Json.num 1),
          ("name", Json.str "subscribe-events")])))).1
      = subscribeState onAccept.1 :=
  (timer_cancel_only_on_subscribe [] onAccept.1
    (Json.obj [("type", Json.str "invoke"), ("id", Json.num 1),
      ("name", Json.str "subscribe-events")])).2.2 rfl rfl rfl rfl

/-- C10: a frame that parses to anything other than an object with
`type == "invoke"` is ignored (no action, state unchanged, connection
stays open), except the literal `null`, whose `.type` access throws and
closes the connection with code 4006. -/
theorem non_invoke_frames_ignored (handlers : List CustomWebSocketHandler)
    (conn : ConnState) :
    (∀ j : Json, j ≠ Json.null → jsGet j "type" ≠ some (Json.str "invoke") →
      handleFrame handlers conn (Except.ok j) = (conn, [])) ∧
    (conn.readyState = 1 →
      handleFrame handlers conn (Except.ok Json.null) =
        ({ conn with
            readyState := 3
            closeInfo := some (4006, "Cannot read properties of null (reading type)") },
          [WsAction.close 4006 "Cannot read properties of null (reading type)"])) := by
  constructor
  · intro j hnull hty
    have hmsg : handleMessage handlers conn j = Except.ok (conn, []) := by
      cases j
      case null => exact absurd rfl hnull
      case obj fields => simp only [handleMessage]
      all_goals rfl
    simp only [handleFrame, hmsg]
  · intro hr
    simp only [handleFrame, handleMessage, closeConn, hr]
    norm_num

/-- Witness for C10: a frame parsing to the number 5 is ignored. -/
theorem non_invoke_frames_ignored_witness :
    handleFrame [] onAccept.1 (Except.ok (Json.num 5)) = (onAccept.1, []) :=
  (non_invoke_frames_ignored [] onAccept.1).1 (Json.num 5)
    (fun h => Json.noConfusion h) (fun h => Option.noConfusion h)

/-- C5: a `"plugin"` invoke with a missing, `null` or empty `pluginName`
gets the `"Must specify pluginName"` error; otherwise the handler is
looked up case-insensitively, and on a hit the callback is invoked
exactly once with the frame's `data` field and no response at all is
sent, while on a miss the `"Unknown plugin name specified"` error is
sent.  The final conjunct states that the lookup succeeds exactly when
some registered handler's name matches case-insensitively. -/
theorem plugin_invoke_behavior (handlers : List CustomWebSocketHandler)
    (conn : ConnState) (message : Json)
    (hty : jsGet message "type" = some (Json.str "invoke"))
    (hname : jsGet message "name" = some (Json.str "plugin")) :
    ((jsGet message "pluginName" = none ∨ jsGet message "pluginName" = some Json.null ∨
        jsGet message "pluginName" = some (Json.str "")) →
      handleMessage handlers conn message =
        Except.ok (conn, [sendError (jsGet message "id") "Must specify pluginName"])) ∧
    (∀ s plugin, jsGet message "pluginName" = some (Json.str s) → s ≠ "" →
      handlers.find? (fun p => lowercase p.pluginName == lowercase s) = some plugin →
      handleMessage handlers conn message =
        Except.ok (conn, [WsAction.invokeCallback plugin.callbackId (jsGet message "data")])) ∧
    (∀ s, jsGet message "pluginName" = some (Json.str s) → s ≠ "" →
      handlers.find? (fun p => lowercase p.pluginName == lowercase s) = none →
      handleMessage handlers conn message =
        Except.ok (conn, [sendError (jsGet message "id") "Unknown plugin name specified"])) ∧
    (∀ s : String, (handlers.find? (fun p => lowercase p.pluginName == lowercase s)).isSome ↔
      ∃ p ∈ handlers, lowercase p.pluginName = lowercase s) := by
  rw [handleMessage_invoke handlers conn message hty]
  unfold handleInvoke
  refine ⟨?_, ?_, ?_, ?_⟩
  · rintro (hpn | hpn | hpn) <;> simp only [hname, hpn, if_true, if_pos rfl]
  · intro s plugin hpn hs hfind
    simp only [hname, hpn, hfind, hs, if_false, if_neg hs]
  · intro s hpn hs hfind
    simp only [hname, hpn, hfind, hs, if_false, if_neg hs]
  · intro s
    rw [List.find?_isSome]
    constructor
    · rintro ⟨p, hp, hbeq⟩
      exact ⟨p, hp, by simpa using hbeq⟩
    · rintro ⟨p, hp, heq⟩
      exact ⟨p, hp, by simpa using heq⟩

/-- Witness for C5: a plugin invoke naming `"Foo"` when the handler was
registered as `"foo"` invokes that callback once with the frame data. -/
theorem plugin_invoke_behavior_witness :
    handleMessage [{ pluginName := "foo", callbackId := 7 }] onAccept.1
        (Json.obj [("type", Json.str "invoke"), ("id", Json.num 1),
          ("name", Json.str "plugin"), ("pluginName", Json.str "Foo"),
          ("data", Json.num 2)]) =
      Except.ok (onAccept.1, [WsAction.invokeCallback 7 (some (Json.num 2))]) :=
  (plugin_invoke_behavior [{ pluginName := "foo", callbackId := 7 }] onAccept.1
    (Json.obj [("type", Json.str "invoke"), ("id", Json.num 1),
      ("name", Json.str "plugin"), ("pluginName", Json.str "Foo"),
      ("data", Json.num 2)]) rfl rfl).2.1 "Foo" { pluginName := "foo", callbackId := 7 }
    rfl (by decide) rfl

theorem pluginDispatched_of_name_ne (handlers : List CustomWebSocketHandler)
    (message : Json) (h : jsGet message "name" ≠ some (Json.str "plugin")) :
    pluginDispatched handlers message = false := by
  unfold pluginDispatched
  split
  · next heq => exact absurd heq h
  · rfl

theorem pluginDispatched_of_plugin (handlers : List CustomWebSocketHandler)
    (message : Json) (h : jsGet message "name" = some (Json.str "plugin")) :
    pluginDispatched handlers message =
      match jsGet message "pluginName" with
      | some (Json.str s) =>
        (s != "") && (handlers.find? fun p => lowercase p.pluginName == lowercase s).isSome
      | _ => false := by
  unfold pluginDispatched
  rw [h]
  rfl

/-- C1 amended: an `invoke` frame that is handled without an exception
produces exactly one response frame, sent synchronously while handling
the frame — except when the invoke is a `"plugin"` invoke whose
non-empty `pluginName` matches a registered handler, in which case the
callback is dispatched and no response at all is sent. -/
theorem invoke_response_count (handlers : List CustomWebSocketHandler)
    (conn : ConnState) (message : Json) (c2 : ConnState) (acts : List WsAction)
    (hok : handleMessage handlers conn message = Except.ok (c2, acts))
    (hty : jsGet message "type" = some (Json.str "invoke")) :
    countResponses acts = if pluginDispatched handlers message then 0 else 1 := by
  rw [handleMessage_invoke handlers conn message hty] at hok
  unfold handleInvoke at hok
  split at hok
  · next heq =>
    rw [pluginDispatched_of_name_ne handlers message (by rw [heq]; intro hh; simp at hh)]
    split at hok <;>
      (simp only [Except.ok.injEq, Prod.mk.injEq] at hok
       obtain ⟨-, ha⟩ := hok
       subst ha
       rfl)
  · next heq =>
    rw [pluginDispatched_of_plugin handlers message heq]
    split at hok
    · next hpn =>
      rw [hpn]
      simp only [Except.ok.injEq, Prod.mk.injEq] at hok
      obtain ⟨-, ha⟩ := hok
      subst ha
      rfl
    · next hpn =>
      rw [hpn]
      simp only [Except.ok.injEq, Prod.mk.injEq] at hok
      obtain ⟨-, ha⟩ := hok
      subst ha
      rfl
    · next s hpn =>
      rw [hpn]
      split at hok
      · next hs =>
        subst hs
        simp only [Except.ok.injEq, Prod.mk.injEq] at hok
        obtain ⟨-, ha⟩ := hok
        subst ha
        rfl
      · next hs =>
        split at hok
        · next plugin hfind =>
          simp only [Except.ok.injEq, Prod.mk.injEq] at hok
          obtain ⟨-, ha⟩ := hok
          subst ha
          simp [countResponses, hfind, bne_iff_ne, hs]
        · next hfind =>
          simp only [Except.ok.injEq, Prod.mk.injEq] at hok
          obtain ⟨-, ha⟩ := hok
          subst ha
          simp [countResponses, sendError, hfind, bne_iff_ne, hs]
    · next hpn =>
      exact absurd hok (by simp)
  · next h1 h2 =>
    rw [pluginDispatched_of_name_ne handlers message h2]
    simp only [Except.ok.injEq, Prod.mk.injEq] at hok
    obtain ⟨-, ha⟩ := hok
    subst ha
    rfl

/-- C1 as stated is false on the code: a plugin invoke naming a
registered handler is handled without an exception, invokes the
callback, and sends zero response frames, not one. -/
theorem invoke_plugin_zero_responses :
    handleMessage [{ pluginName := "foo", callbackId := 0 }] onAccept.1
        (Json.obj [("type", Json.str "invoke"), ("id", Json.num 1),
          ("name", Json.str "plugin"), ("pluginName", Json.str "Foo")]) =
      Except.ok (onAccept.1, [WsAction.invokeCallback 0 none]) ∧
    countResponses [WsAction.invokeCallback 0 none] = 0 :=
  ⟨rfl, rfl⟩

/-- Witness for the amended C1: a subscribe invoke on a fresh connection
is not a plugin dispatch and yields exactly one response. -/
theorem invoke_response_count_witness :
    countResponses [sendResponse (some (Json.num 1)) Json.null] =
      if pluginDispatched []
          (Json.obj [("type", Json.str "invoke"), ("id", Json.num 1),
            ("name", Json.str "subscribe-events")]) then 0 else 1 :=
  invoke_response_count [] onAccept.1
    (Json.obj [("type", Json.str "invoke"), ("id", Json.num 1),
      ("name", Json.str "subscribe-events")])
    (subscribeState onAccept.1) [sendResponse (some (Json.num 1)) Json.null]
    rfl rfl

/-- C6: a frame whose parse fails, or whose handling raises an
exception after a successful parse, closes only the receiving
connection with code 4006 and the error message as the reason; every
other connection, the handler table and the server itself are
untouched. -/
theorem frame_error_closes_4006 (s : ServerState) (i : Nat) (c : ConnState) (e : String)
    (hc : s.clients[i]? = some c) (hopen : c.readyState = 1) :
    (serverHandleFrame s i (Except.error e) =
      ({ s with
          clients := s.clients.set i
            { c with readyState := 3, closeInfo := some (4006, e) } },
        [WsAction.close 4006 e])) ∧
    (∀ m, handleMessage s.customHandlers c m = Except.error e →
      serverHandleFrame s i (Except.ok m) =
        ({ s with
            clients := s.clients.set i
              { c with readyState := 3, closeInfo := some (4006, e) } },
          [WsAction.close 4006 e])) ∧
    (∀ parsed (j : Nat), j ≠ i →
      (serverHandleFrame s i parsed).1.clients[j]? = s.clients[j]?) ∧
    (∀ parsed, (serverHandleFrame s i parsed).1.customHandlers = s.customHandlers ∧
      (serverHandleFrame s i parsed).1.started = s.started) := by
  have hclose : closeConn c 4006 e =
      { c with readyState := 3, closeInfo := some (4006, e) } := by
    unfold closeConn
    rw [hopen]
    norm_num
  refine ⟨?_, ?_, ?_, ?_⟩
  · simp only [serverHandleFrame, hc, connStep, hopen, if_true, handleFrame, hclose]
  · intro m hm
    simp only [serverHandleFrame, hc, connStep, hopen, if_true, handleFrame, hm, hclose]
  · intro parsed j hj
    unfold serverHandleFrame
    rw [hc]
    exact List.getElem?_set_ne (fun hh => hj hh.symm)
  · intro parsed
    unfold serverHandleFrame
    rw [hc]
    exact ⟨rfl, rfl⟩

/-- Witness for C6: a parse failure on the only connection of a started
server closes it with code 4006 and the parse error as reason. -/
theorem frame_error_closes_4006_witness :
    serverHandleFrame { started := true, clients := [onAccept.1], customHandlers := [] } 0
        (Except.error "Unexpected token in JSON") =
      ({ started := true,
          clients :=
            [{ onAccept.1 with
                readyState := 3
                closeInfo := some (4006, "Unexpected token in JSON") }],
          customHandlers := [] },
        [WsAction.close 4006 "Unexpected token in JSON"]) :=
  (frame_error_closes_4006
    { started := true, clients := [onAccept.1], customHandlers := [] } 0 onAccept.1
    "Unexpected token in JSON" rfl rfl).1

/-- C9: registering a custom WebSocket listener fails (returns `false`
and stores nothing) exactly when a handler with the same
case-insensitive name already exists, and otherwise appends the entry
and returns `true`; hence the table keeps at most one entry per
case-normalized name. -/
theorem register_listener_unique (handlers : List CustomWebSocketHandler)
    (pluginName : String) (callbackId : Nat) :
    ((registerCustomWebSocketListener handlers pluginName callbackId).2 = false ↔
      ∃ p ∈ handlers, lowercase p.pluginName = lowercase pluginName) ∧
    ((registerCustomWebSocketListener handlers pluginName callbackId).2 = true →
      (registerCustomWebSocketListener handlers pluginName callbackId).1 =
        handlers ++ [{ pluginName := pluginName, callbackId := callbackId }]) ∧
    ((registerCustomWebSocketListener handlers pluginName callbackId).2 = false →
      (registerCustomWebSocketListener handlers pluginName callbackId).1 = handlers) ∧
    (List.Pairwise (fun a b => lowercase a.pluginName ≠ lowercase b.pluginName) handlers →
      List.Pairwise (fun a b => lowercase a.pluginName ≠ lowercase b.pluginName)
        (registerCustomWebSocketListener handlers pluginName callbackId).1) := by
  unfold registerCustomWebSocketListener
  by_cases hidx :
      handlers.findIdx? (fun p => lowercase p.pluginName == lowercase pluginName) = none
  · rw [if_pos hidx]
    have hall : ∀ x ∈ handlers, ¬ lowercase x.pluginName = lowercase pluginName := by
      rw [List.findIdx?_eq_none_iff] at hidx
      intro x hx
      have hb := hidx x hx
      simpa using hb
    refine ⟨?_, fun _ => rfl, ?_, ?_⟩
    · constructor
      · intro hfalse
        exact Bool.noConfusion hfalse
      · rintro ⟨p, hp, heq⟩
        exact absurd heq (hall p hp)
    · intro hfalse
      exact Bool.noConfusion hfalse
    · intro hpw
      rw [List.pairwise_append]
      refine ⟨hpw, by simp, ?_⟩
      intro a ha b hb
      rw [List.mem_singleton] at hb
      subst hb
      exact hall a ha
  · rw [if_neg hidx]
    have hex : ∃ p ∈ handlers, lowercase p.pluginName = lowercase pluginName := by
      have hnall :
          ¬ ∀ x ∈ handlers, (lowercase x.pluginName == lowercase pluginName) = false := by
        intro hall
        exact hidx (List.findIdx?_eq_none_iff.mpr hall)
      push_neg at hnall
      obtain ⟨p, hp, hpeq⟩ := hnall
      refine ⟨p, hp, ?_⟩
      have hb : (lowercase p.pluginName == lowercase pluginName) = true :=
        Bool.not_eq_false _ |>.mp hpeq
      simpa using hb
    exact ⟨⟨fun _ => hex, fun _ => rfl⟩, fun htrue => Bool.noConfusion htrue,
      fun _ => rfl, fun hpw => hpw⟩

/-- Witness for C9: registering `"foo"` when `"Foo"` is already
registered fails with a duplicate-name rejection. -/
theorem register_listener_unique_witness :
    (registerCustomWebSocketListener [{ pluginName := "Foo", callbackId := 0 }]
        "foo" 1).2 = false :=
  (register_listener_unique [{ pluginName := "Foo", callbackId := 0 }] "foo" 1).1.mpr
    ⟨{ pluginName := "Foo", callbackId := 0 }, List.mem_singleton.mpr rfl, by decide⟩

theorem sendEvent_mem_fanOut (msg : Json) (sendErr : Nat → Option String) :
    ∀ (cs : List ConnState) (k i : Nat) (f : Json),
      WsAction.sendEvent i f ∈ fanOut msg sendErr k cs ↔
        ∃ j c, cs[j]? = some c ∧ i = k + j ∧ c.readyState = 1 ∧
          c.wsType = some "events" ∧ f = msg := by
  intro cs
  induction cs with
  | nil => intro k i f; simp [fanOut]
  | cons client rest ih =>
    intro k i f
    simp only [fanOut]
    split
    · next hcond =>
      rw [ih (k + 1) i f]
      constructor
      · rintro ⟨j, c, h1, h2, h3, h4, h5⟩
        exact ⟨j + 1, c, by simpa using h1, by omega, h3, h4, h5⟩
      · rintro ⟨j, c, h1, h2, h3, h4, h5⟩
        cases j with
        | zero =>
          simp only [List.getElem?_cons_zero, Option.some.injEq] at h1
          subst h1
          rcases hcond with hfc | hfc
          · exact absurd h3 hfc
          · exact absurd h4 hfc
        | succ j =>
          exact ⟨j, c, by simpa using h1, by omega, h3, h4, h5⟩
    · next hcond =>
      push_neg at hcond
      obtain ⟨hr, hw⟩ := hcond
      constructor
      · intro hmem
        rcases List.mem_cons.mp hmem with hhead | htail
        · simp only [WsAction.sendEvent.injEq] at hhead
          obtain ⟨hi, hf⟩ := hhead
          exact ⟨0, client, by simp, by omega, hr, hw, hf⟩
        · rcases List.mem_append.mp htail with herr | hrest
          · cases hse : sendErr k with
            | some m => rw [hse] at herr; simp at herr
            | none => rw [hse] at herr; simp at herr
          · rw [ih (k + 1) i f] at hrest
            obtain ⟨j, c, h1, h2, h3, h4, h5⟩ := hrest
            exact ⟨j + 1, c, by simpa using h1, by omega, h3, h4, h5⟩
      · rintro ⟨j, c, h1, h2, h3, h4, h5⟩
        cases j with
        | zero =>
          simp only [List.getElem?_cons_zero, Option.some.injEq] at h1
          subst h5
          have hik : i = k := by omega
          subst hik
          exact List.mem_cons_self _ _
        | succ j =>
          apply List.mem_cons_of_mem
          apply List.mem_append_right
          rw [ih (k + 1) i f]
          exact ⟨j, c, by simpa using h1, by omega, h3, h4, h5⟩

theorem fanOut_actions_shape (msg : Json) (sendErr : Nat → Option String) :
    ∀ (cs : List ConnState) (k : Nat) (a : WsAction), a ∈ fanOut msg sendErr k cs →
      a.isSendEvent = true ∨ ∃ m, a = WsAction.logError m ∧ ∃ i, sendErr i = some m := by
  intro cs
  induction cs with
  | nil => intro k a ha; simp [fanOut] at ha
  | cons client rest ih =>
    intro k a ha
    simp only [fanOut] at ha
    split at ha
    · exact ih (k + 1) a ha
    · rcases List.mem_cons.mp ha with h | h
      · subst h; exact Or.inl rfl
      · rcases List.mem_append.mp h with h | h
        · cases hse : sendErr k with
          | some m =>
            rw [hse] at h
            rw [List.mem_singleton] at h
            subst h
            exact Or.inr ⟨m, rfl, k, hse⟩
          | none => rw [hse] at h; simp at h
        · exact ih (k + 1) a h

theorem fanOut_filter_sendEvent (msg : Json) (e1 e2 : Nat → Option String) :
    ∀ (cs : List ConnState) (k : Nat),
      (fanOut msg e1 k cs).filter WsAction.isSendEvent =
        (fanOut msg e2 k cs).filter WsAction.isSendEvent := by
  intro cs
  induction cs with
  | nil => intro k; rfl
  | cons client rest ih =>
    intro k
    simp only [fanOut]
    split
    · exact ih (k + 1)
    · have h1 : (match e1 k with
          | some m => [WsAction.logError m]
          | none => []).filter WsAction.isSendEvent = [] := by
        cases e1 k <;> rfl
      have h2 : (match e2 k with
          | some m => [WsAction.logError m]
          | none => []).filter WsAction.isSendEvent = [] := by
        cases e2 k <;> rfl
      simp only [List.filter_cons, List.filter_append, h1, h2, ih (k + 1),
        WsAction.isSendEvent, if_pos]

/-- C7: broadcasting is a no-op before the server is created; once
started, the same single event frame is sent to exactly the tracked
connections whose role is `"events"` and whose transport ready state is
OPEN, and every other action the broadcast performs is a local error
log, so skipped connections are skipped silently. -/
theorem trigger_event_broadcast (s : ServerState) (eventType : String) (payload : Json)
    (sendErr : Nat → Option String) :
    (s.started = false → triggerEvent s eventType payload sendErr = []) ∧
    (∀ (i : Nat) (f : Json),
      WsAction.sendEvent i f ∈ triggerEvent s eventType payload sendErr ↔
        (s.started = true ∧ f = eventMessage eventType payload ∧
          ∃ c, s.clients[i]? = some c ∧ c.readyState = 1 ∧ c.wsType = some "events")) ∧
    (∀ a ∈ triggerEvent s eventType payload sendErr,
      a.isSendEvent = true ∨ ∃ m, a = WsAction.logError m) := by
  refine ⟨fun h => by simp [triggerEvent, h], ?_, ?_⟩
  · intro i f
    unfold triggerEvent
    by_cases hs : s.started = false
    · simp [hs]
    · have hs1 : s.started = true := by revert hs; cases s.started <;> simp
      rw [if_neg hs]
      rw [sendEvent_mem_fanOut (eventMessage eventType payload) sendErr s.clients 0 i f]
      constructor
      · rintro ⟨j, c, h1, h2, h3, h4, h5⟩
        have hij : j = i := by omega
        subst hij
        exact ⟨hs1, h5, c, h1, h3, h4⟩
      · rintro ⟨-, h5, c, h1, h3, h4⟩
        exact ⟨i, c, h1, by omega, h3, h4, h5⟩
  · intro a ha
    unfold triggerEvent at ha
    split at ha
    · simp at ha
    · rcases fanOut_actions_shape (eventMessage eventType payload) sendErr s.clients 0 a ha
        with h | ⟨m, hm, -⟩
      · exact Or.inl h
      · exact Or.inr ⟨m, hm⟩

/-- Witness for C7: with one subscribed and one unsubscribed connection
on a started server, the subscribed one (index 0) receives the frame. -/
theorem trigger_event_broadcast_witness :
    WsAction.sendEvent 0 (eventMessage "test" Json.null) ∈
      triggerEvent
        { started := true, clients := [subscribeState onAccept.1, onAccept.1],
          customHandlers := [] }
        "test" Json.null (fun _ => none) :=
  ((trigger_event_broadcast
    { started := true, clients := [subscribeState onAccept.1, onAccept.1],
      customHandlers := [] }
    "test" Json.null (fun _ => none)).2.1 0 (eventMessage "test" Json.null)).mpr
    ⟨rfl, rfl, subscribeState onAccept.1, rfl, rfl, rfl⟩

/-- C8: the set of event-frame sends of a broadcast is the same
whatever per-recipient send errors occur (one recipient's failure never
prevents delivery to the others or aborts the fan-out), and every
non-send action of a broadcast is a local log of one recipient's
reported error, never anything surfaced to a client. -/
theorem broadcast_error_isolated (s : ServerState) (eventType : String) (payload : Json)
    (sendErr sendErr2 : Nat → Option String) :
    ((triggerEvent s eventType payload sendErr).filter WsAction.isSendEvent =
      (triggerEvent s eventType payload sendErr2).filter WsAction.isSendEvent) ∧
    (∀ a ∈ triggerEvent s eventType payload sendErr,
      WsAction.isSendEvent a = true ∨
        ∃ m, a = WsAction.logError m ∧ ∃ i, sendErr i = some m) := by
  constructor
  · unfold triggerEvent
    split
    · rfl
    · exact fanOut_filter_sendEvent (eventMessage eventType payload) sendErr sendErr2
        s.clients 0
  · intro a ha
    unfold triggerEvent at ha
    split at ha
    · simp at ha
    · exact fanOut_actions_shape (eventMessage eventType payload) sendErr s.clients 0 a ha

/-- Witness for C8: with two subscribed connections, a send error on
connection 0 leaves the delivered frames identical to an error-free
broadcast. -/
theorem broadcast_error_isolated_witness :
    (triggerEvent
        { started := true, clients := [subscribeState onAccept.1, subscribeState onAccept.1],
          customHandlers := [] }
        "test" Json.null (fun i => if i = 0 then some "EPIPE" else none)).filter
      WsAction.isSendEvent =
    (triggerEvent
        { started := true, clients := [subscribeState onAccept.1, subscribeState onAccept.1],
          customHandlers := [] }
        "test" Json.null (fun _ => none)).filter WsAction.isSendEvent :=
  (broadcast_error_isolated
    { started := true, clients := [subscribeState onAccept.1, subscribeState onAccept.1],
      customHandlers := [] }
    "test" Json.null (fun i => if i = 0 then some "EPIPE" else none) (fun _ => none)).1
